import Mathlib

/-!
Verification of `fastapi_template/templates/fullstack/examples/fastapi_users_usage.py`.

The file under verification declares two pydantic record shapes (`ItemCreate`,
`ItemResponse`), four route handlers (`protected_endpoint`, `admin_only_endpoint`,
`create_item`, `get_user_items`), a load-time backend switch driven by the
environment variable `FASTAPI_USERS_BACKEND`, and a pass-through middleware
`add_user_info`.  The externally owned `User` entity is modelled as a structure
carrying exactly the attributes the handlers read: `id` (any type with a string
form), `email`, an optional `username` (the handlers access it via `getattr`
with a fallback, so absence is representable), and the `is_superuser` flag.
-/

/-- External `User` entity as consumed by the handlers: `id` of an arbitrary
identifier type with a string form, `email`, optional `username` attribute
(absent means `getattr` falls back), and the `is_superuser` flag. -/
structure User (α : Type) where
  id : α
  email : String
  username : Option String
  is_superuser : Bool

/-- Request body shape `ItemCreate`: required `title`, optional `description`
defaulting to absent (`description: str = None` in the source). -/
structure ItemCreate where
  title : String
  description : Option String := none
deriving DecidableEq

/-- Response shape `ItemResponse`: `id`, `title`, optional `description`, and
`owner_id` (a string derived from the resolved identity). -/
structure ItemResponse where
  id : Int
  title : String
  description : Option String := none
  owner_id : String
deriving DecidableEq

/-- Shape of the dictionary returned by the `/protected` handler. -/
structure ProtectedResponse where
  message : String
  user_id : String
  username : String
deriving DecidableEq

/-- Shape of the dictionary returned by the `/admin-only` handler. -/
structure AdminResponse where
  message : String
  is_superuser : Bool
deriving DecidableEq

/-- Handler of `GET /protected`: returns the greeting built from the user
email, the string form of the identifier, and `getattr(user, "username", "N/A")`. -/
def protected_endpoint {α : Type} [ToString α] (user : User α) : ProtectedResponse :=
  { message := "Hello " ++ user.email ++ "!"
    user_id := toString user.id
    username := user.username.getD "N/A" }

/-- Handler of `GET /admin-only`: greeting plus the `is_superuser` flag read
off the resolved user. -/
def admin_only_endpoint {α : Type} [ToString α] (user : User α) : AdminResponse :=
  { message := "Hello admin " ++ user.email ++ "!"
    is_superuser := user.is_superuser }

/-- Handler of `POST /items`: builds the mock `ItemResponse` with hard-coded
`id = 1`, the body title and description, and the caller as owner. -/
def create_item {α : Type} [ToString α] (item : ItemCreate) (user : User α) : ItemResponse :=
  { id := 1
    title := item.title
    description := item.description
    owner_id := toString user.id }

/-- Handler of `GET /items`: returns the one-element mock list attributed to
the caller. -/
def get_user_items {α : Type} [ToString α] (user : User α) : List ItemResponse :=
  [ { id := 1
      title := "User\x27s Item 1"
      description := some "This belongs to the current user"
      owner_id := toString user.id } ]

/-- Middleware `add_user_info`: forwards the request to the next handler in
the chain and returns its response (`response = await call_next(request);
return response`). -/
def add_user_info {ρ σ : Type} (request : ρ) (call_next : ρ → σ) : σ :=
  call_next request

/-- Application with the middleware registered: every request goes through
`add_user_info` before reaching the underlying application. -/
def runWithMiddleware {ρ σ : Type} (app : ρ → σ) (request : ρ) : σ :=
  add_user_info request app

/-- Backend variants selectable at import time. -/
inductive Backend where
  | sqlalchemy : Backend
  | beanie : Backend
deriving DecidableEq

/-- Value of `BACKEND = os.getenv("FASTAPI_USERS_BACKEND", "sqlalchemy")`:
the environment variable when set, else the default `"sqlalchemy"`. -/
def getBACKEND (env : Option String) : String :=
  env.getD "sqlalchemy"

/-- Import-time switch: `if BACKEND == "sqlalchemy"` selects the
sqlalchemy-backed modules, any other value selects the beanie
(document-store) modules. -/
def selectBackend (env : Option String) : Backend :=
  if getBACKEND env = "sqlalchemy" then Backend.sqlalchemy else Backend.beanie

/-- Modelled from the spec: the framework dependency dispatch for
`GET /protected` (the `Depends(current_active_user)` wiring is resolved by the
host framework, which is outside this file).  The identity resolver either
fails with an error that is propagated unchanged, or yields a user on which
the handler body runs. -/
def protectedRoute {ε α : Type} [ToString α] (dep : Except ε (User α)) :
    Except ε ProtectedResponse :=
  match dep with
  | Except.error e => Except.error e
  | Except.ok u => Except.ok (protected_endpoint u)

/-- Modelled from the spec: the framework dependency dispatch for
`GET /admin-only`, with the superuser resolver as the dependency. -/
def adminRoute {ε α : Type} [ToString α] (dep : Except ε (User α)) :
    Except ε AdminResponse :=
  match dep with
  | Except.error e => Except.error e
  | Except.ok u => Except.ok (admin_only_endpoint u)

/-- C1: for every `ItemCreate` body with title `"T"` (here any title `t`) and
absent description, and every resolved active user whose identifier
stringifies to `"42"`, `create_item` returns exactly
`ItemResponse {id := 1, title := t, description := none, owner_id := "42"}`. -/
theorem create_item_exact {α : Type} [ToString α] (t : String) (u : User α)
    (h : toString u.id = "42") :
    create_item { title := t, description := none } u =
      { id := 1, title := t, description := none, owner_id := "42" } := by
  simp [create_item, h]

/-- C1 witness: concrete instantiation with title `"T"` and a user whose
identifier is the natural number 42. -/
theorem create_item_exact_witness :
    toString (42 : Nat) = "42" ∧
      create_item { title := "T", description := none }
          (⟨42, "alice@example.com", none, false⟩ : User Nat) =
        { id := 1, title := "T", description := none, owner_id := "42" } :=
  ⟨by decide, create_item_exact "T" ⟨42, "alice@example.com", none, false⟩ (by decide)⟩

/-- C2: for every resolved user holding the elevated-privilege flag, the
`/admin-only` handler returns a response whose `is_superuser` field is true. -/
theorem admin_only_superuser {α : Type} [ToString α] (u : User α)
    (h : u.is_superuser = true) :
    (admin_only_endpoint u).is_superuser = true := by
  simp [admin_only_endpoint, h]

/-- C2 witness: concrete superuser. -/
theorem admin_only_superuser_witness :
    (⟨7, "root@example.com", none, true⟩ : User Nat).is_superuser = true ∧
      (admin_only_endpoint (⟨7, "root@example.com", none, true⟩ : User Nat)).is_superuser
        = true :=
  ⟨rfl, admin_only_superuser ⟨7, "root@example.com", none, true⟩ rfl⟩

/-- C3: when the resolved user has no `username` attribute the `/protected`
handler still succeeds and returns the fixed placeholder `"N/A"` as the
`username` field; when the attribute is present its value is returned. -/
theorem protected_username_fallback {α : Type} [ToString α] (u : User α) :
    (u.username = none → (protected_endpoint u).username = "N/A") ∧
      (∀ s : String, u.username = some s → (protected_endpoint u).username = s) := by
  refine ⟨fun h => ?_, fun s h => ?_⟩ <;> simp [protected_endpoint, h]

/-- C3 witness: one user without a `username` attribute and one with. -/
theorem protected_username_fallback_witness :
    (protected_endpoint (⟨1, "a@b.c", none, false⟩ : User Nat)).username = "N/A" ∧
      (protected_endpoint (⟨1, "a@b.c", some "bob", false⟩ : User Nat)).username = "bob" :=
  ⟨(protected_username_fallback (⟨1, "a@b.c", none, false⟩ : User Nat)).1 rfl,
   (protected_username_fallback (⟨1, "a@b.c", some "bob", false⟩ : User Nat)).2 "bob" rfl⟩

/-- C4: for every resolved active user, the `/protected` response message
contains the user email as a substring and the `user_id` field equals the
string form of the identifier. -/
theorem protected_message_and_id {α : Type} [ToString α] (u : User α) :
    (∃ pre post : String, (protected_endpoint u).message = pre ++ u.email ++ post) ∧
      (protected_endpoint u).user_id = toString u.id :=
  ⟨⟨"Hello ", "!", rfl⟩, rfl⟩

/-- C5: for every resolved active user, `get_user_items` returns a list of
exactly one `ItemResponse` whose `owner_id` is the string form of the caller
identifier and whose `title` is the literal item title. -/
theorem get_user_items_shape {α : Type} [ToString α] (u : User α) :
    ∃ r : ItemResponse, get_user_items u = [r] ∧
      r.owner_id = toString u.id ∧ r.title = "User\x27s Item 1" :=
  ⟨_, rfl, rfl, rfl⟩

/-- C6: on either protected route, a failing identity dependency propagates
its error unchanged and the handler body never runs; a handler body executes
exactly when the dependency resolved successfully. -/
theorem route_error_propagation {ε α : Type} [ToString α] (e : ε) (dep : Except ε (User α)) :
    (dep = Except.error e →
        protectedRoute dep = Except.error e ∧ adminRoute dep = Except.error e) ∧
      (∀ r, protectedRoute dep = Except.ok r →
        ∃ u, dep = Except.ok u ∧ r = protected_endpoint u) ∧
      (∀ r, adminRoute dep = Except.ok r →
        ∃ u, dep = Except.ok u ∧ r = admin_only_endpoint u) := by
  refine ⟨fun h => ?_, fun r h => ?_, fun r h => ?_⟩
  · subst h; exact ⟨rfl, rfl⟩
  · cases dep with
    | error e => simp [protectedRoute] at h
    | ok u => exact ⟨u, rfl, by simpa [protectedRoute] using h.symm⟩
  · cases dep with
    | error e => simp [adminRoute] at h
    | ok u => exact ⟨u, rfl, by simpa [adminRoute] using h.symm⟩

/-- C6 witness: a concrete failing dependency (error string `"401"`) is
propagated unchanged by both routes. -/
theorem route_error_propagation_witness :
    protectedRoute (Except.error "401" : Except String (User Nat)) = Except.error "401" ∧
      adminRoute (Except.error "401" : Except String (User Nat)) = Except.error "401" :=
  (route_error_propagation "401" (Except.error "401" : Except String (User Nat))).1 rfl

/-- C7: registering the `add_user_info` middleware is transparent: for every
application and every request, the response with the middleware equals the
response without it. -/
theorem middleware_transparent {ρ σ : Type} (app : ρ → σ) (request : ρ) :
    runWithMiddleware app request = app request :=
  rfl

/-- C8: the backend switch is a function of the single import-time read of
`FASTAPI_USERS_BACKEND`: when unset it selects the sqlalchemy backend, and
for any set value it selects the sqlalchemy backend exactly when the value is
`"sqlalchemy"` and the beanie (document-store) backend otherwise. -/
theorem backend_selection (env : Option String) :
    selectBackend none = Backend.sqlalchemy ∧
      selectBackend env =
        (if getBACKEND env = "sqlalchemy" then Backend.sqlalchemy else Backend.beanie) ∧
      (selectBackend env = Backend.sqlalchemy ∨ selectBackend env = Backend.beanie) := by
  refine ⟨by decide, rfl, ?_⟩
  by_cases h : getBACKEND env = "sqlalchemy" <;> simp [selectBackend, h]

/-- C9: every value of the environment variable other than the exact string
`"sqlalchemy"` selects the beanie (document-store) backend; no value is
rejected. -/
theorem backend_other_values (s : String) (h : s ≠ "sqlalchemy") :
    selectBackend (some s) = Backend.beanie := by
  simp [selectBackend, getBACKEND, h]

/-- C9 witness: the misspelling `"sqlalchem"` selects the beanie backend. -/
theorem backend_other_values_witness :
    "sqlalchem" ≠ "sqlalchemy" ∧ selectBackend (some "sqlalchem") = Backend.beanie :=
  ⟨by decide, backend_other_values "sqlalchem" (by decide)⟩

/-- C10: for every caller, the sole element returned by `get_user_items` has
`id = 1` and the fixed description, independent of the identity. -/
theorem get_user_items_fixed_fields {α : Type} [ToString α] (u : User α) :
    ∃ r : ItemResponse, get_user_items u = [r] ∧
      r.id = 1 ∧ r.description = some "This belongs to the current user" :=
  ⟨_, rfl, rfl, rfl⟩
